import Mathlib

/-!
Verification of the EpicToolBag Blender add-on (thiagollage/EpicToolBag).

Shallow embedding of the add-on's Python modules:
 * `remesh.py`   — mesh-complexity analytics, the intelligent remeshing heuristic and
                   the `AdvancedRemesher` operator;
 * `shader.py`   — the `CreateOutline` operator;
 * `render.py`   — the `NavigateHDRI` operator;
 * `panels.py` / `__init__.py` — registration of classes and scene properties.

Conventions of the embedding:
 * Python floats are modelled as exact rationals (`ℚ`); Python ints as `ℤ`/`ℕ`.
 * Quantities produced by Blender's `bmesh`/`mathutils` kernels (face areas,
   normal lengths, angles between vectors) are carried as rational input data of
   the mesh model, since their computation (square roots, arccos) lives outside
   the repository.
 * Code that can raise (`ZeroDivisionError`, `IndexError`) is modelled with
   `Option`; `none` is a raised exception.
-/

namespace EpicToolBag

/-- Python's `int()` conversion applied to a float: truncation toward zero
(floor for non-negative arguments, ceiling for negative ones). -/
def pyInt (x : ℚ) : ℤ := if 0 ≤ x then ⌊x⌋ else ⌈x⌉

/-- Operator return statuses used by Blender operators (`{'FINISHED'}` / `{'CANCELLED'}`). -/
inductive OpStatus
  | FINISHED
  | CANCELLED
deriving DecidableEq, Repr

namespace Remesh

/-- A face as observed through `bmesh`: `face.calc_area()` and `face.normal.length`
are taken as rational data. -/
structure Face where
  area : ℚ
  normalLength : ℚ
deriving DecidableEq, Repr

/-- An edge as observed through `bmesh`: the number of linked faces
(`len(e.link_faces)`) and the `e.is_manifold` flag. -/
structure Edge where
  linkFaces : ℕ
  isManifold : Bool
deriving DecidableEq, Repr

/-- Mesh data as read by `remesh.py` through `bmesh`.  `vertNormalLengths` lists
`v.normal.length` for each vertex; `normalAngles` lists the angles
`normals[i].angle(normals[i-1])` between consecutive face normals (remesh.py
line 60), carried as data because `mathutils.Vector.angle` is transcendental. -/
structure Mesh where
  faces : List Face
  vertNormalLengths : List ℚ
  edges : List Edge
  normalAngles : List ℚ
deriving DecidableEq, Repr

/-- The dictionary returned by `RemeshAnalytics.calculate_mesh_complexity`
(remesh.py lines 31-42). -/
structure ComplexityMetrics where
  polygon_count : ℕ
  vertex_count : ℕ
  edge_count : ℕ
  boundary_edges : ℕ
  non_manifold_edges : ℕ
  polygon_density : ℚ
  vertex_complexity : ℚ
  curvatura : ℚ
  volume : ℚ
  is_complex : Bool
deriving DecidableEq, Repr

/-- The `volume` estimate of remesh.py line 21:
`sum(abs(face.calc_area() * face.normal.length) for face in bm.faces) / 3`. -/
def meshVolume (m : Mesh) : ℚ :=
  (m.faces.map (fun f => |f.area * f.normalLength|)).sum / 3

/-- Embeds `RemeshAnalytics.calculate_mesh_complexity` (remesh.py lines 11-42).
The `curvatura` average divides by `vertex_count` (line 25), which raises
`ZeroDivisionError` on a mesh without vertices; that exception is the `none`
case.  The other two divisors, `volume + 1e-6` (line 23) and
`polygon_count + 1` (line 24), are always nonzero. -/
def calculate_mesh_complexity (m : Mesh) : Option ComplexityMetrics :=
  let polygon_count := m.faces.length
  let vertex_count := m.vertNormalLengths.length
  if vertex_count = 0 then
    none
  else
    some
      { polygon_count := polygon_count
        vertex_count := vertex_count
        edge_count := m.edges.length
        boundary_edges := (m.edges.filter (fun e => e.linkFaces < 2)).length
        non_manifold_edges := (m.edges.filter (fun e => !e.isManifold)).length
        polygon_density := (polygon_count : ℚ) / (meshVolume m + 1 / 1000000)
        vertex_complexity := (vertex_count : ℚ) / ((polygon_count : ℚ) + 1)
        curvatura := m.vertNormalLengths.sum / (vertex_count : ℚ)
        volume := meshVolume m
        is_complex := decide (polygon_count > 1000) }

/-- The `is_planar` field of `RemeshIntelligentSettings.detect_planar_surface`
(remesh.py lines 53-67): `np.mean(angles) < 0.05`.  For an empty angle list
(at most one face) `np.mean` is NaN and `NaN < 0.05` is `False`.  The unused
`variation_count` field is not modelled. -/
def detect_planar_surface (m : Mesh) : Bool :=
  if m.normalAngles.isEmpty then false
  else decide (m.normalAngles.sum / (m.normalAngles.length : ℚ) < 1 / 20)

/-- Embeds `RemeshIntelligentSettings.calculate_quad_count` (remesh.py lines 46-51). -/
def calculate_quad_count (detail_preservation : ℚ) (original_poly_count : ℤ) : ℤ :=
  let normalized_detail : ℚ := detail_preservation / 100
  let target_count : ℤ := pyInt ((original_poly_count : ℚ) * (5 / 10))
  let quad_count : ℤ := pyInt ((target_count : ℚ) * normalized_detail)
  let min_quads : ℤ := max 10 (pyInt ((original_poly_count : ℚ) * (5 / 100)))
  max min_quads (min quad_count target_count)

namespace DensityDetails

/-- Embeds `DensityDetails.calculate_octree_depth` (remesh.py lines 131-134), a function
of the `detail_preservation` property. -/
def calculate_octree_depth (detail_preservation : ℚ) : ℤ :=
  let min_depth : ℚ := 2
  let max_depth : ℚ := 8
  pyInt (min_depth + (max_depth - min_depth) * (detail_preservation / 100))

/-- Embeds `DensityDetails.calculate_voxel_size` (remesh.py lines 136-139). -/
def calculate_voxel_size (detail_preservation : ℚ) : ℚ :=
  let min_size : ℚ := 1 / 100
  let max_size : ℚ := 1 / 10
  min_size + (max_size - min_size) * (1 - detail_preservation / 100)

end DensityDetails

namespace AdvancedRemesher

/-- Embeds `AdvancedRemesher.calculate_octree_depth` (remesh.py lines 257-266). -/
def calculate_octree_depth (quad_count : ℤ) (current_poly_count : ℤ) : ℤ :=
  let min_depth : ℚ := 2
  let max_depth : ℚ := 8
  let base_depth : ℚ := (quad_count : ℚ) / 500
  let base_depth :=
    if current_poly_count > 0 then
      base_depth * ((quad_count : ℚ) / (current_poly_count : ℚ))
    else base_depth
  pyInt (max min_depth (min max_depth base_depth))

/-- Embeds `AdvancedRemesher.calculate_voxel_size` (remesh.py lines 268-272).  The
`current_poly_count` parameter is accepted but never read by the source. -/
def calculate_voxel_size (quad_count : ℤ) (current_poly_count : ℤ) : ℚ :=
  let min_size : ℚ := 1 / 100
  let max_size : ℚ := 1 / 10
  let normalized_density : ℚ := (quad_count : ℚ) / 100
  min_size + (max_size - min_size) * (1 - normalized_density)

end AdvancedRemesher

/-- Remesh mode values of the `remesh_mode` enum property (remesh.py lines 95-104). -/
inductive RemeshMode
  | SHARP
  | SMOOTH
  | VOXEL
deriving DecidableEq, Repr

/-- The slice of the `DensityDetails` property group read by
`AdvancedRemesher.execute` (`context.scene.epic_advanced_remesh`). -/
structure RemeshSettings where
  detail_preservation : ℚ
  preserve_details : Bool
  remesh_mode : RemeshMode
deriving DecidableEq, Repr

/-- A Blender object as observed and mutated by `remesh.py`: its `type` string,
the presence of the `"RemeshApplied"` custom property, its viewport hide state
(`hide_set`), its modifier stack (modifier type names) and its mesh data.
Object names (`get_unique_name`) are not modelled; no claim depends on them. -/
structure BObj where
  objType : String
  remeshApplied : Bool
  hidden : Bool
  modifiers : List String
  mesh : Mesh
deriving DecidableEq, Repr

/-- The part of the Blender context read by `AdvancedRemesher.execute`. -/
structure Context where
  active_object : Option BObj
  scene : RemeshSettings
deriving DecidableEq, Repr

/-- A modifier application performed on the duplicate object, with the settings
the source computes for it.  `bpy.ops.object.modifier_apply` removes the
modifier from the stack after evaluating it, so applications are recorded as a
trace rather than as stack entries. -/
inductive ModOp
  | decimate (ratio : ℚ)
  | remesh (mode : RemeshMode) (setting : ℚ)
  | smooth (factor : ℚ) (iterations : ℕ)
deriving DecidableEq, Repr

/-- The Blender modifier type name of an applied modifier. -/
def ModOp.kind : ModOp → String
  | .decimate _ => "DECIMATE"
  | .remesh _ _ => "REMESH"
  | .smooth _ _ => "SMOOTH"

/-- Outcome of one `AdvancedRemesher.execute` run: the returned status, the
`self.report` messages (level, text), the post-state of the original active
object, the duplicate (if one was created) and the modifiers applied to the
duplicate, in application order. -/
structure ExecResult where
  status : OpStatus
  reports : List (String × String)
  original : Option BObj
  new_obj : Option BObj
  applied : List ModOp
deriving DecidableEq, Repr

namespace AdvancedRemesher

/-- Embeds `duplicate_object` (remesh.py lines 141-145): `obj.copy()` duplicates the
object and its data (custom properties included); the fresh linked copy is not
hidden in the viewport. -/
def duplicate_object (obj : BObj) : BObj :=
  { obj with hidden := false }

/-- Embeds `AdvancedRemesher.hide_original_object` (remesh.py lines 226-228). -/
def hide_original_object (obj : BObj) : BObj :=
  { obj with hidden := true, remeshApplied := true }

/-- Embeds `AdvancedRemesher.remove_existing_modifier` applied with type `'REMESH'`
(remesh.py lines 230-234). -/
def remove_existing_modifier (obj : BObj) (modifier_type : String) : BObj :=
  { obj with modifiers := obj.modifiers.filter (fun t => t ≠ modifier_type) }

/-- Embeds `AdvancedRemesher.apply_decimate_modifier` (remesh.py lines 236-239):
ratio `0.5` when the original polygon count exceeds 400, else `1.0`. -/
def apply_decimate_modifier (original_poly_count : ℤ) : ModOp :=
  .decimate (if original_poly_count > 400 then 5 / 10 else 1)

/-- Embeds `AdvancedRemesher.apply_remesh_modifier` (remesh.py lines 241-248): octree
depth for `SHARP`/`SMOOTH` modes, voxel size for `VOXEL` mode. -/
def apply_remesh_modifier (mode : RemeshMode) (quad_count : ℤ)
    (current_poly_count : ℤ) : ModOp :=
  match mode with
  | .SHARP => .remesh .SHARP ((calculate_octree_depth quad_count current_poly_count : ℤ) : ℚ)
  | .SMOOTH => .remesh .SMOOTH ((calculate_octree_depth quad_count current_poly_count : ℤ) : ℚ)
  | .VOXEL => .remesh .VOXEL (calculate_voxel_size quad_count current_poly_count)

/-- Embeds `AdvancedRemesher.apply_smooth_modifier` (remesh.py lines 250-255). -/
def apply_smooth_modifier (preserve_details : Bool) : ModOp :=
  .smooth (if preserve_details then 2 else 4) 5

/-- Embeds `AdvancedRemesher.report_performance` (remesh.py lines 274-295).  It
recomputes the complexity of both objects (which raises on a vertex-less mesh)
and divides by the original polygon count (line 281), which raises
`ZeroDivisionError` when that count is zero; `none` is a raised exception.
The geometric effect of the applied modifiers on the duplicate's mesh data is
produced by Blender's kernels and is outside this embedding, so the duplicate
is measured on its duplicated data. -/
def report_performance (original_obj new_obj : BObj) : Option (String × String) :=
  match calculate_mesh_complexity original_obj.mesh,
        calculate_mesh_complexity new_obj.mesh with
  | some mo, some _ =>
      if mo.polygon_count = 0 then none
      else some ("INFO", "Remeshing completed.")
  | _, _ => none

/-- The report and status produced when an exception escapes to the handler of
`execute` (remesh.py lines 177-182). -/
def exceptionResult (original : Option BObj) (new_obj : Option BObj)
    (applied : List ModOp) : ExecResult :=
  { status := .CANCELLED
    reports := [("ERROR", "Remeshing failed: division by zero")]
    original := original
    new_obj := new_obj
    applied := applied }

/-- The duplicate built by both perform paths before marking: `duplicate_object`
followed by `remove_existing_modifier(new_obj, 'REMESH')`. -/
def dupBase (obj : BObj) : BObj :=
  remove_existing_modifier (duplicate_object obj) "REMESH"

/-- Embeds `AdvancedRemesher.perform_remesh` (remesh.py lines 205-224), the simple
path: duplicate, hide the original, drop pre-existing REMESH modifiers, apply a
single remesh modifier, mark the duplicate, report.  An exception raised inside
`report_performance` propagates to the handler of `execute` with all mutations
already performed. -/
def perform_remesh (obj : BObj) (quad_count : ℤ) (preserve_details : Bool)
    (remesh_mode : RemeshMode) : ExecResult :=
  let new_obj := duplicate_object obj
  let original := hide_original_object obj
  let new_obj := remove_existing_modifier new_obj "REMESH"
  let is_planar := detect_planar_surface obj.mesh
  let mode := if is_planar && !preserve_details then RemeshMode.SMOOTH else remesh_mode
  let op := apply_remesh_modifier mode quad_count (new_obj.mesh.faces.length : ℤ)
  let new_obj := { new_obj with remeshApplied := true }
  match report_performance original new_obj with
  | some rep =>
      { status := .FINISHED, reports := [rep], original := some original
        new_obj := some new_obj, applied := [op] }
  | none => exceptionResult (some original) (some new_obj) [op]

/-- Embeds `AdvancedRemesher.perform_complex_remesh` (remesh.py lines 184-203), the
complex path: duplicate, hide the original, drop pre-existing REMESH modifiers,
then apply decimate, remesh and smooth modifiers in that order, mark the
duplicate, report. -/
def perform_complex_remesh (obj : BObj) (quad_count : ℤ) (preserve_details : Bool)
    (original_poly_count : ℤ) (remesh_mode : RemeshMode) : ExecResult :=
  let new_obj := duplicate_object obj
  let original := hide_original_object obj
  let new_obj := remove_existing_modifier new_obj "REMESH"
  let op1 := apply_decimate_modifier original_poly_count
  let op2 := apply_remesh_modifier remesh_mode quad_count (new_obj.mesh.faces.length : ℤ)
  let op3 := apply_smooth_modifier preserve_details
  let new_obj := { new_obj with remeshApplied := true }
  match report_performance original new_obj with
  | some rep =>
      { status := .FINISHED, reports := [rep], original := some original
        new_obj := some new_obj, applied := [op1, op2, op3] }
  | none => exceptionResult (some original) (some new_obj) [op1, op2, op3]

/-- Embeds `AdvancedRemesher.execute` (remesh.py lines 153-182). -/
def execute (ctx : Context) : ExecResult :=
  match ctx.active_object with
  | none =>
      { status := .CANCELLED
        reports := [("ERROR", "No active mesh object found.")]
        original := none, new_obj := none, applied := [] }
  | some obj =>
      if obj.objType ≠ "MESH" then
        { status := .CANCELLED
          reports := [("ERROR", "No active mesh object found.")]
          original := some obj, new_obj := none, applied := [] }
      else if obj.remeshApplied then
        { status := .CANCELLED
          reports := [("WARNING", "Remesh has already been applied to this object.")]
          original := some obj, new_obj := none, applied := [] }
      else
        match calculate_mesh_complexity obj.mesh with
        | none => exceptionResult (some obj) none []
        | some complexity_metrics =>
            let is_planar := detect_planar_surface obj.mesh
            let original_poly_count : ℤ := complexity_metrics.polygon_count
            let desired_quad_count :=
              calculate_quad_count ctx.scene.detail_preservation original_poly_count
            if is_planar || !complexity_metrics.is_complex then
              perform_remesh obj desired_quad_count ctx.scene.preserve_details
                ctx.scene.remesh_mode
            else
              perform_complex_remesh obj desired_quad_count ctx.scene.preserve_details
                original_poly_count ctx.scene.remesh_mode

end AdvancedRemesher

end Remesh

namespace Shader

/-- A modifier as inspected by `CreateOutline.execute` (shader.py lines 124-127):
its type string and, for geometry-nodes modifiers, the name of the attached
node group (`none` when `mod.node_group` is `None`). -/
structure GNModifier where
  modType : String
  node_group : Option String
deriving DecidableEq, Repr

/-- A Blender object as observed and mutated by `CreateOutline.execute`: its
`type` string, the material slots of its data (material names), the name of the
active material, and its modifier stack. -/
structure OutlineObj where
  objType : String
  materials : List String
  active_material : Option String
  modifiers : List GNModifier
deriving DecidableEq, Repr

/-- The ambient state `CreateOutline.execute` consults outside the object:
whether `CreateOutlineSetup.blend` exists on disk, whether the
`"Outline Effects"` node group is available after the library load, and whether
the `"Outline Color"` / `"Rim Color"` materials are available. -/
structure BlendEnv where
  blendFileExists : Bool
  outlineEffectsExists : Bool
  outlineColorMatExists : Bool
  rimColorMatExists : Bool
deriving DecidableEq, Repr

/-- Outcome of one `CreateOutline.execute` run: status, `self.report` messages,
and the post-state of the active object. -/
structure OutlineResult where
  status : OpStatus
  reports : List (String × String)
  obj : Option OutlineObj
deriving DecidableEq, Repr

/-- Embeds `CreateOutline.execute` (shader.py lines 106-197).  Geometry-socket wiring
inside the copied node group (lines 163-174) only mutates the node group, not
the object's modifier list or material slots, and is not modelled. -/
def CreateOutline.execute (env : BlendEnv) (active_object : Option OutlineObj) :
    OutlineResult :=
  match active_object with
  | none =>
      ⟨.CANCELLED, [("ERROR", "Please select a mesh object first.")], none⟩
  | some obj =>
      if obj.objType ≠ "MESH" then
        ⟨.CANCELLED, [("ERROR", "Please select a mesh object first.")], some obj⟩
      else if obj.materials.isEmpty then
        ⟨.CANCELLED, [("ERROR", "Object has no materials. Please add a material first.")],
          some obj⟩
      else
        match obj.active_material with
        | none => ⟨.CANCELLED, [("ERROR", "No active material selected.")], some obj⟩
        | some mat =>
            if obj.modifiers.any (fun m =>
                m.modType == "NODES" && m.node_group == some ("Outline_" ++ mat)) then
              ⟨.CANCELLED,
                [("WARNING", "Outline modifier already exists for material: " ++ mat)],
                some obj⟩
            else if !env.blendFileExists then
              ⟨.CANCELLED, [("ERROR", "File not found: CreateOutlineSetup.blend")], some obj⟩
            else if !env.outlineEffectsExists then
              ⟨.CANCELLED, [("WARNING", "Outline Effects node group not found.")], some obj⟩
            else
              let obj := { obj with
                modifiers := obj.modifiers ++ [⟨"NODES", some ("Outline_" ++ mat)⟩] }
              let obj :=
                if env.outlineColorMatExists && env.rimColorMatExists then
                  { obj with materials :=
                      obj.materials ++ ["FX Outline_" ++ mat, "FX Rim_" ++ mat] }
                else obj
              ⟨.FINISHED, [("INFO", "Outline effect applied to material: " ++ mat)],
                some obj⟩

end Shader

namespace Render

/-- The `direction` enum property of `NavigateHDRI` (render.py lines 315-321). -/
inductive Direction
  | NEXT
  | PREV
deriving DecidableEq, Repr

/-- The index arithmetic of `NavigateHDRI.execute` (render.py lines 338-345):
`(current_index + 1) % n` for NEXT, `(current_index - 1 + n) % n` for PREV.
Python's `%` on ints agrees with `Int.emod` for a positive modulus. -/
def nextIndex (n i : ℤ) : Direction → ℤ
  | .NEXT => (i + 1) % n
  | .PREV => (i - 1 + n) % n

theorem nextIndex_bounds (n i : ℤ) (hn : 0 < n) (d : Direction) :
    0 ≤ nextIndex n i d ∧ nextIndex n i d < n := by
  cases d <;> exact ⟨Int.emod_nonneg _ (by omega), Int.emod_lt_of_pos _ hn⟩

/-- Embeds `NavigateHDRI.execute` (render.py lines 323-347), given the HDRI preview
list (`list(pcoll.keys())`, whose keys are distinct) and the current scene HDRI.
Returns the new value of `context.scene.hdri_enum`; `none` models the
`IndexError` of `hdri_list[0]` on an empty list (and the preview-collection
lookup failure, which leaves the scene unchanged, is outside this slice). -/
def NavigateHDRI.execute (hdri_list : List String) (current_hdri : String)
    (direction : Direction) : Option String :=
  if hmem : current_hdri ∈ hdri_list then
    some (hdri_list.get
      ⟨(nextIndex (hdri_list.length : ℤ) (hdri_list.indexOf current_hdri : ℤ)
          direction).toNat, by
        have hn : 0 < (hdri_list.length : ℤ) := by
          exact_mod_cast List.length_pos.mpr (List.ne_nil_of_mem hmem)
        have h := nextIndex_bounds (hdri_list.length : ℤ)
          (hdri_list.indexOf current_hdri : ℤ) hn direction
        omega⟩)
  else hdri_list.head?

end Render

namespace Registry

/-- The host registration state touched by the add-on: the classes registered
with `bpy.utils.register_class` (in registration order), the properties attached
to `bpy.types.Scene` and the properties attached to `bpy.types.WindowManager`. -/
structure RegistryState where
  classes : List String
  sceneProps : List String
  wmProps : List String
deriving DecidableEq, Repr

/-- Embeds `bpy.utils.register_class` for each class of a list, in order. -/
def registerClasses (s : RegistryState) (cls : List String) : RegistryState :=
  { s with classes := s.classes ++ cls }

/-- Embeds `bpy.utils.unregister_class` for each class of `reversed(cls)`: each call
removes that class's (unique) registry entry. -/
def unregisterClasses (s : RegistryState) (cls : List String) : RegistryState :=
  { s with classes := List.foldl List.erase s.classes cls.reverse }

/-- Embeds `setattr(bpy.types.Scene, p, ...)`: attaches the property (overwriting any
previous definition, so the name is present exactly once). -/
def addSceneProp (s : RegistryState) (p : String) : RegistryState :=
  if p ∈ s.sceneProps then s else { s with sceneProps := s.sceneProps ++ [p] }

/-- Embeds `delattr(bpy.types.Scene, p)` guarded by `hasattr`. -/
def removeSceneProp (s : RegistryState) (p : String) : RegistryState :=
  { s with sceneProps := s.sceneProps.erase p }

def addSceneProps (s : RegistryState) (ps : List String) : RegistryState :=
  ps.foldl addSceneProp s

def removeSceneProps (s : RegistryState) (ps : List String) : RegistryState :=
  ps.foldl removeSceneProp s

def addWMProp (s : RegistryState) (p : String) : RegistryState :=
  if p ∈ s.wmProps then s else { s with wmProps := s.wmProps ++ [p] }

def removeWMProp (s : RegistryState) (p : String) : RegistryState :=
  { s with wmProps := s.wmProps.erase p }

def addWMProps (s : RegistryState) (ps : List String) : RegistryState :=
  ps.foldl addWMProp s

/-- The class list of `remesh.register` (remesh.py line 314). -/
def remeshClasses : List String := ["DensityDetails", "AdvancedRemesher"]

/-- Embeds `remesh.register` (remesh.py lines 313-316): register the classes in order,
then attach `Scene.epic_advanced_remesh`. -/
def remeshRegister (s : RegistryState) : RegistryState :=
  addSceneProp (registerClasses s remeshClasses) "epic_advanced_remesh"

/-- Embeds `remesh.unregister` (remesh.py lines 318-321): delete
`Scene.epic_advanced_remesh`, then unregister the classes in reverse order. -/
def remeshUnregister (s : RegistryState) : RegistryState :=
  unregisterClasses (removeSceneProp s "epic_advanced_remesh") remeshClasses

/-- The class list of `panels.register` (panels.py line 1342). -/
def panelsClasses : List String := ["Preferences", "EpicToolBagAddonPanel"]

/-- The `bpy.types.Scene` properties attached by `panels.add_properties`
(panels.py lines 108-303), in source order. -/
def panelsAddedSceneProps : List String :=
  ["custom_enum", "modifier_view_mode", "topology_view_mode", "expand_effects",
   "cel_shading_settings", "shade_steps", "dither_fx_settings", "dither_pattern",
   "dither_scale", "hdri_enum", "expand_column", "expand_render", "hdri_files",
   "world_transparent", "hdri_rotation_degrees", "expand_light_controls",
   "outline_color", "expand_shader_tools", "expand_topology_tools",
   "expand_imports", "expand_topology_section", "expand_camera",
   "expand_set_controls", "expand_render_tools"]

/-- The `bpy.types.WindowManager` properties attached by `panels.add_properties`
(panels.py lines 218-230). -/
def panelsAddedWMProps : List String :=
  ["active_material_index", "previous_workspace_name"]

/-- The `props_to_remove` list of `panels.remove_properties`
(panels.py lines 1355-1380). -/
def panelsPropsToRemove : List String :=
  ["custom_enum", "expand_column", "expand_render", "hdri_files",
   "world_transparent", "hdri_rotation_degrees", "hdri_enum",
   "expand_light_controls", "outline_color", "modifier_view_mode",
   "expand_uv_outline", "expand_imports", "expand_camera", "expand_effects",
   "cel_shading_settings", "shade_steps", "dither_fx_settings", "dither_pattern",
   "dither_scale", "expand_set_controls", "expand_render_tools",
   "topology_view_mode", "expand_shader_tools", "expand_topology_tools"]

/-- Embeds `panels.register` (panels.py lines 1344-1347): register the classes, then
`add_properties` (Scene properties, then the WindowManager properties; all the
names attached are distinct, so splitting the interleaving is harmless). -/
def panelsRegister (s : RegistryState) : RegistryState :=
  addWMProps (addSceneProps (registerClasses s panelsClasses) panelsAddedSceneProps)
    panelsAddedWMProps

/-- Embeds `panels.unregister` (panels.py lines 1349-1399): unregister the classes in
reverse order, then `remove_properties` (delete each name of `props_to_remove`
from `Scene`, and `previous_workspace_name` from `WindowManager`; the
`Preferences.last_active_material` deletion and the preview-collection cleanup
touch state outside this model). -/
def panelsUnregister (s : RegistryState) : RegistryState :=
  removeWMProp (removeSceneProps (unregisterClasses s panelsClasses) panelsPropsToRemove)
    "previous_workspace_name"

/-- The empty host registry. -/
def emptyRegistry : RegistryState := ⟨[], [], []⟩

end Registry

/-! ### Concrete example inputs used by the witnesses -/

namespace Examples

/-- A small planar mesh: two unit faces, one vertex record, one zero angle. -/
def mPlanar : Remesh.Mesh := ⟨[⟨1, 1⟩, ⟨1, 1⟩], [1], [], [0]⟩

/-- A large non-planar mesh: 1001 unit faces with consecutive-normal angles of 1 radian. -/
def mBig : Remesh.Mesh :=
  ⟨List.replicate 1001 ⟨1, 1⟩, [1, 1], [], List.replicate 1000 1⟩

/-- Default-like settings: full detail preservation, preserve details, SHARP mode. -/
def settings : Remesh.RemeshSettings := ⟨100, true, .SHARP⟩

def objPlanar : Remesh.BObj := ⟨"MESH", false, false, [], mPlanar⟩

def objBig : Remesh.BObj := ⟨"MESH", false, false, [], mBig⟩

def ctxPlanar : Remesh.Context := ⟨some objPlanar, settings⟩

def ctxBig : Remesh.Context := ⟨some objBig, settings⟩

/-- A context with no active object. -/
def ctxNone : Remesh.Context := ⟨none, settings⟩

/-- An outline object carrying an `Outline_Mat` geometry-nodes modifier for its
active material `Mat`. -/
def outlineObj : Shader.OutlineObj :=
  ⟨"MESH", ["Mat"], some "Mat", [⟨"NODES", some "Outline_Mat"⟩]⟩

def blendEnv : Shader.BlendEnv := ⟨true, true, true, true⟩

end Examples

/-! ### Helper lemmas -/

theorem pyInt_of_nonneg {x : ℚ} (h : 0 ≤ x) : pyInt x = ⌊x⌋ := if_pos h

theorem meshVolume_nonneg (m : Remesh.Mesh) : 0 ≤ Remesh.meshVolume m := by
  unfold Remesh.meshVolume
  apply div_nonneg _ (by norm_num)
  apply List.sum_nonneg
  intro x hx
  simp only [List.mem_map] at hx
  obtain ⟨f, _, rfl⟩ := hx
  exact abs_nonneg _

namespace Remesh

theorem calculate_mesh_complexity_eq_some (m : Mesh)
    (hv : m.vertNormalLengths ≠ []) :
    calculate_mesh_complexity m = some
      { polygon_count := m.faces.length
        vertex_count := m.vertNormalLengths.length
        edge_count := m.edges.length
        boundary_edges := (m.edges.filter (fun e => e.linkFaces < 2)).length
        non_manifold_edges := (m.edges.filter (fun e => !e.isManifold)).length
        polygon_density := (m.faces.length : ℚ) / (meshVolume m + 1 / 1000000)
        vertex_complexity := (m.vertNormalLengths.length : ℚ) / ((m.faces.length : ℚ) + 1)
        curvatura := m.vertNormalLengths.sum / (m.vertNormalLengths.length : ℚ)
        volume := meshVolume m
        is_complex := decide (m.faces.length > 1000) } := by
  have h : m.vertNormalLengths.length ≠ 0 := by
    simpa [List.length_eq_zero] using hv
  simp [calculate_mesh_complexity, h]

theorem calculate_mesh_complexity_eq_none (m : Mesh)
    (hv : m.vertNormalLengths = []) :
    calculate_mesh_complexity m = none := by
  simp [calculate_mesh_complexity, hv]

namespace AdvancedRemesher

theorem report_performance_some (o n : BObj)
    (hvo : o.mesh.vertNormalLengths ≠ []) (hvn : n.mesh.vertNormalLengths ≠ [])
    (hf : o.mesh.faces ≠ []) :
    report_performance o n = some ("INFO", "Remeshing completed.") := by
  have hfo : o.mesh.faces.length ≠ 0 := by
    simpa [List.length_eq_zero] using hf
  rw [report_performance, calculate_mesh_complexity_eq_some o.mesh hvo,
    calculate_mesh_complexity_eq_some n.mesh hvn]
  simp [hfo]

theorem report_performance_none (o n : BObj)
    (hvo : o.mesh.vertNormalLengths ≠ []) (hvn : n.mesh.vertNormalLengths ≠ [])
    (hf : o.mesh.faces = []) :
    report_performance o n = none := by
  rw [report_performance, calculate_mesh_complexity_eq_some o.mesh hvo,
    calculate_mesh_complexity_eq_some n.mesh hvn]
  simp [hf]

theorem apply_remesh_modifier_kind (mode : RemeshMode) (q c : ℤ) :
    (apply_remesh_modifier mode q c).kind = "REMESH" := by
  cases mode <;> rfl

theorem dupBase_mesh (obj : BObj) : (dupBase obj).mesh = obj.mesh := rfl

theorem dupBase_objType (obj : BObj) : (dupBase obj).objType = obj.objType := rfl

theorem perform_remesh_eq (obj : BObj) (q : ℤ) (pd : Bool) (mode : RemeshMode)
    (hv : obj.mesh.vertNormalLengths ≠ []) (hf : obj.mesh.faces ≠ []) :
    perform_remesh obj q pd mode =
      { status := .FINISHED
        reports := [("INFO", "Remeshing completed.")]
        original := some (hide_original_object obj)
        new_obj := some { dupBase obj with remeshApplied := true }
        applied := [apply_remesh_modifier
          (if detect_planar_surface obj.mesh && !pd then .SMOOTH else mode) q
          (obj.mesh.faces.length : ℤ)] } := by
  have hrep := report_performance_some (hide_original_object obj)
    { dupBase obj with remeshApplied := true } hv hv hf
  simp only [perform_remesh, dupBase] at hrep ⊢
  rw [hrep]
  rfl

theorem perform_remesh_fail (obj : BObj) (q : ℤ) (pd : Bool) (mode : RemeshMode)
    (hv : obj.mesh.vertNormalLengths ≠ []) (hf : obj.mesh.faces = []) :
    perform_remesh obj q pd mode =
      exceptionResult (some (hide_original_object obj))
        (some { dupBase obj with remeshApplied := true })
        [apply_remesh_modifier
          (if detect_planar_surface obj.mesh && !pd then .SMOOTH else mode) q
          (obj.mesh.faces.length : ℤ)] := by
  have hrep := report_performance_none (hide_original_object obj)
    { dupBase obj with remeshApplied := true } hv hv hf
  simp only [perform_remesh, dupBase] at hrep ⊢
  rw [hrep]
  rfl

theorem perform_complex_remesh_eq (obj : BObj) (q : ℤ) (pd : Bool) (opc : ℤ)
    (mode : RemeshMode)
    (hv : obj.mesh.vertNormalLengths ≠ []) (hf : obj.mesh.faces ≠ []) :
    perform_complex_remesh obj q pd opc mode =
      { status := .FINISHED
        reports := [("INFO", "Remeshing completed.")]
        original := some (hide_original_object obj)
        new_obj := some { dupBase obj with remeshApplied := true }
        applied := [apply_decimate_modifier opc,
          apply_remesh_modifier mode q (obj.mesh.faces.length : ℤ),
          apply_smooth_modifier pd] } := by
  have hrep := report_performance_some (hide_original_object obj)
    { dupBase obj with remeshApplied := true } hv hv hf
  simp only [perform_complex_remesh, dupBase] at hrep ⊢
  rw [hrep]
  rfl

theorem perform_complex_remesh_fail (obj : BObj) (q : ℤ) (pd : Bool) (opc : ℤ)
    (mode : RemeshMode)
    (hv : obj.mesh.vertNormalLengths ≠ []) (hf : obj.mesh.faces = []) :
    perform_complex_remesh obj q pd opc mode =
      exceptionResult (some (hide_original_object obj))
        (some { dupBase obj with remeshApplied := true })
        [apply_decimate_modifier opc,
          apply_remesh_modifier mode q (obj.mesh.faces.length : ℤ),
          apply_smooth_modifier pd] := by
  have hrep := report_performance_none (hide_original_object obj)
    { dupBase obj with remeshApplied := true } hv hv hf
  simp only [perform_complex_remesh, dupBase] at hrep ⊢
  rw [hrep]
  rfl

theorem execute_eq_perform (obj : BObj) (scene : RemeshSettings)
    (hm : obj.objType = "MESH") (hra : obj.remeshApplied = false)
    (hv : obj.mesh.vertNormalLengths ≠ []) :
    execute ⟨some obj, scene⟩ =
      if detect_planar_surface obj.mesh || !(decide (obj.mesh.faces.length > 1000)) then
        perform_remesh obj
          (calculate_quad_count scene.detail_preservation (obj.mesh.faces.length : ℤ))
          scene.preserve_details scene.remesh_mode
      else
        perform_complex_remesh obj
          (calculate_quad_count scene.detail_preservation (obj.mesh.faces.length : ℤ))
          scene.preserve_details (obj.mesh.faces.length : ℤ) scene.remesh_mode := by
  rw [execute]
  simp only [hm, hra]
  rw [calculate_mesh_complexity_eq_some obj.mesh hv]
  simp

theorem perform_remesh_kinds (obj : BObj) (q : ℤ) (pd : Bool) (mode : RemeshMode) :
    (perform_remesh obj q pd mode).applied.map ModOp.kind = ["REMESH"] := by
  simp only [perform_remesh]
  split <;> simp [exceptionResult, apply_remesh_modifier_kind]

theorem perform_complex_remesh_kinds (obj : BObj) (q : ℤ) (pd : Bool) (opc : ℤ)
    (mode : RemeshMode) :
    (perform_complex_remesh obj q pd opc mode).applied.map ModOp.kind =
      ["DECIMATE", "REMESH", "SMOOTH"] := by
  simp only [perform_complex_remesh]
  split <;>
  · simp only [exceptionResult, List.map_cons, List.map_nil, apply_remesh_modifier_kind]
    rfl

theorem execute_cancelled_of_applied (o : BObj) (scene : RemeshSettings)
    (hm : o.objType = "MESH") (hra : o.remeshApplied = true) :
    (execute ⟨some o, scene⟩).status = .CANCELLED := by
  simp [execute, hm, hra]

end AdvancedRemesher

theorem detect_planar_surface_iff (m : Mesh) :
    detect_planar_surface m = true ↔
      (m.normalAngles ≠ [] ∧
       m.normalAngles.sum / (m.normalAngles.length : ℚ) < 1 / 20) := by
  by_cases h : m.normalAngles.isEmpty
  · rw [detect_planar_surface, if_pos h]
    simp [List.isEmpty_iff.mp h]
  · rw [detect_planar_surface, if_neg h]
    have hne : m.normalAngles ≠ [] := by simpa [List.isEmpty_iff] using h
    simp [hne]

end Remesh

namespace Render

theorem NavigateHDRI.execute_of_mem (l : List String) (c : String) (d : Direction)
    (h : c ∈ l)
    (hj : (nextIndex (l.length : ℤ) (l.indexOf c : ℤ) d).toNat < l.length) :
    NavigateHDRI.execute l c d =
      some (l.get ⟨(nextIndex (l.length : ℤ) (l.indexOf c : ℤ) d).toNat, hj⟩) := by
  rw [NavigateHDRI.execute, dif_pos h]

end Render

namespace Registry

theorem foldl_erase_append (pre l p : List String) (h : ∀ x ∈ p, x ∉ pre) :
    List.foldl List.erase (pre ++ l) p = pre ++ List.foldl List.erase l p := by
  induction p generalizing l with
  | nil => rfl
  | cons x xs ih =>
      simp only [List.foldl_cons]
      rw [List.erase_append_right l (h x (List.mem_cons_self x xs))]
      exact ih (l.erase x) (fun y hy => h y (List.mem_cons_of_mem x hy))

theorem foldl_erase_cons_of_ne (c : String) (l p : List String)
    (h : ∀ x ∈ p, x ≠ c) :
    List.foldl List.erase (c :: l) p = c :: List.foldl List.erase l p := by
  induction p generalizing l with
  | nil => rfl
  | cons x xs ih =>
      simp only [List.foldl_cons]
      rw [List.erase_cons_tail
        (by simpa using Ne.symm (h x (List.mem_cons_self x xs)))]
      exact ih (l.erase x) (fun y hy => h y (List.mem_cons_of_mem x hy))

theorem foldl_erase_self (l : List String) (hnd : l.Nodup) :
    List.foldl List.erase l l.reverse = [] := by
  induction l with
  | nil => rfl
  | cons c cs ih =>
      have hnotin : c ∉ cs := (List.nodup_cons.mp hnd).1
      have hnd' : cs.Nodup := (List.nodup_cons.mp hnd).2
      rw [List.reverse_cons, List.foldl_append,
        foldl_erase_cons_of_ne c cs cs.reverse
          (fun x hx hxc => hnotin (hxc ▸ List.mem_reverse.mp hx)),
        ih hnd']
      simp

/-- Unregistering a freshly registered block of (distinct, previously absent)
classes in reverse registration order restores the registry. -/
theorem unregister_registerClasses (s : RegistryState) (cls : List String)
    (hnd : cls.Nodup) (hdis : ∀ c ∈ cls, c ∉ s.classes) :
    unregisterClasses (registerClasses s cls) cls = s := by
  simp only [unregisterClasses, registerClasses]
  rw [foldl_erase_append s.classes cls cls.reverse
    (fun x hx => hdis x (List.mem_reverse.mp hx)), foldl_erase_self cls hnd]
  simp

end Registry

/-! ### Claims -/

/-- Claim C2 counterexample: the claim's upper bound fails.  With
`detail_preservation = 100` and `original_poly_count = 0`, the 50%-of-original
cap is `0`, yet `calculate_quad_count` returns the minimum `10`, which exceeds
it. -/
theorem claim_C2_counterexample :
    Remesh.calculate_quad_count 100 0 = 10 ∧
    pyInt ((0 : ℚ) * (5 / 10)) = 0 ∧
    ¬ Remesh.calculate_quad_count 100 0 ≤ pyInt ((0 : ℚ) * (5 / 10)) := by
  have h0 : pyInt ((0 : ℚ) * (5 / 10)) = 0 := by
    rw [show (0 : ℚ) * (5 / 10) = 0 by norm_num, pyInt_of_nonneg le_rfl]
    exact Int.floor_zero
  have h1 : Remesh.calculate_quad_count 100 0 = 10 := by
    simp only [Remesh.calculate_quad_count]
    norm_num [pyInt_of_nonneg]
  refine ⟨h1, h0, by rw [h0, h1]; norm_num⟩

/-- Claim C2 (amended): for `detail_preservation ∈ [0, 100]` and
`original_poly_count ≥ 0`, `calculate_quad_count` returns at least
`max 10 ⌊0.05 · p⌋`; and whenever the minimum does not exceed the 50% cap —
in particular for `p ≥ 20` — the result is also at most `⌊0.5 · p⌋`. -/
theorem claim_C2_amended (d : ℚ) (p : ℤ) (hd0 : 0 ≤ d) (hd1 : d ≤ 100)
    (hp : 0 ≤ p) :
    max 10 (pyInt ((p : ℚ) * (5 / 100))) ≤ Remesh.calculate_quad_count d p ∧
    (20 ≤ p → Remesh.calculate_quad_count d p ≤ pyInt ((p : ℚ) * (5 / 10))) := by
  have hpq : (0 : ℚ) ≤ (p : ℚ) := by exact_mod_cast hp
  constructor
  · simp only [Remesh.calculate_quad_count]
    exact le_max_left _ _
  · intro hp20
    have hpq20 : (20 : ℚ) ≤ (p : ℚ) := by exact_mod_cast hp20
    simp only [Remesh.calculate_quad_count]
    apply max_le
    · apply max_le
      · rw [pyInt_of_nonneg (by nlinarith)]
        rw [Int.le_floor]
        push_cast
        linarith
      · rw [pyInt_of_nonneg (by nlinarith), pyInt_of_nonneg (by nlinarith)]
        apply Int.floor_le_floor
        nlinarith
    · exact min_le_right _ _

/-- Claim C2 amended, concrete witness at `detail_preservation = 100`,
`original_poly_count = 1000`. -/
theorem claim_C2_amended_witness :
    max 10 (pyInt ((1000 : ℚ) * (5 / 100))) ≤ Remesh.calculate_quad_count 100 1000 ∧
    (20 ≤ (1000 : ℤ) → Remesh.calculate_quad_count 100 1000 ≤ pyInt ((1000 : ℚ) * (5 / 10))) :=
  claim_C2_amended 100 1000 (by norm_num) (by norm_num) (by norm_num)

/-- Claim C3: for `detail_preservation ∈ [0, 100]`,
`DensityDetails.calculate_octree_depth` lies in `[2, 8]` and is monotonically
non-decreasing, and `DensityDetails.calculate_voxel_size` lies in
`[0.01, 0.1]` and is monotonically non-increasing. -/
theorem claim_C3 (d d' : ℚ) (h0 : 0 ≤ d) (h1 : d ≤ 100) (h0' : 0 ≤ d')
    (h1' : d' ≤ 100) (hdd : d ≤ d') :
    2 ≤ Remesh.DensityDetails.calculate_octree_depth d ∧
    Remesh.DensityDetails.calculate_octree_depth d ≤ 8 ∧
    Remesh.DensityDetails.calculate_octree_depth d ≤
      Remesh.DensityDetails.calculate_octree_depth d' ∧
    1 / 100 ≤ Remesh.DensityDetails.calculate_voxel_size d ∧
    Remesh.DensityDetails.calculate_voxel_size d ≤ 1 / 10 ∧
    Remesh.DensityDetails.calculate_voxel_size d' ≤
      Remesh.DensityDetails.calculate_voxel_size d := by
  have key : ∀ x : ℚ, 0 ≤ x → Remesh.DensityDetails.calculate_octree_depth x =
      ⌊2 + (8 - 2) * (x / 100)⌋ := by
    intro x hx
    simp only [Remesh.DensityDetails.calculate_octree_depth]
    exact pyInt_of_nonneg (by linarith)
  refine ⟨?_, ?_, ?_, ?_, ?_, ?_⟩
  · rw [key d h0]
    rw [Int.le_floor]
    push_cast
    linarith
  · rw [key d h0]
    have h8 : ⌊(2 : ℚ) + (8 - 2) * (d / 100)⌋ ≤ ⌊(8 : ℚ)⌋ :=
      Int.floor_le_floor (by linarith)
    simpa using h8
  · rw [key d h0, key d' h0']
    exact Int.floor_le_floor (by linarith)
  · simp only [Remesh.DensityDetails.calculate_voxel_size]
    linarith
  · simp only [Remesh.DensityDetails.calculate_voxel_size]
    linarith
  · simp only [Remesh.DensityDetails.calculate_voxel_size]
    linarith

/-- Claim C3, concrete witness at `d = 25`, `d' = 75`. -/
theorem claim_C3_witness :
    2 ≤ Remesh.DensityDetails.calculate_octree_depth 25 ∧
    Remesh.DensityDetails.calculate_octree_depth 25 ≤ 8 ∧
    Remesh.DensityDetails.calculate_octree_depth 25 ≤
      Remesh.DensityDetails.calculate_octree_depth 75 ∧
    1 / 100 ≤ Remesh.DensityDetails.calculate_voxel_size 25 ∧
    Remesh.DensityDetails.calculate_voxel_size 25 ≤ 1 / 10 ∧
    Remesh.DensityDetails.calculate_voxel_size 75 ≤
      Remesh.DensityDetails.calculate_voxel_size 25 :=
  claim_C3 25 75 (by norm_num) (by norm_num) (by norm_num) (by norm_num) (by norm_num)

/-- Claim C4: the code bug.  `AdvancedRemesher.calculate_voxel_size` divides
`quad_count` by 100 without clamping, so `quad_count = 200` (with any
`current_poly_count`, here 500) yields `-0.08`, far below the configured
minimum `min_size = 0.01` — the `[min_size, max_size]` bounds its own local
variables announce are not enforced. -/
theorem claim_C4_bug :
    Remesh.AdvancedRemesher.calculate_voxel_size 200 500 = -(2 / 25) ∧
    Remesh.AdvancedRemesher.calculate_voxel_size 200 500 < 1 / 100 := by
  constructor <;> norm_num [Remesh.AdvancedRemesher.calculate_voxel_size]

/-- Claim C10: `calculate_mesh_complexity` succeeds exactly on meshes with at
least one vertex; the divisors `volume + 1e-6` and `polygon_count + 1` are
always nonzero, and `vertex_count` is nonzero on a non-empty mesh. -/
theorem claim_C10 (m : Remesh.Mesh) :
    ((Remesh.calculate_mesh_complexity m).isSome ↔ m.vertNormalLengths ≠ []) ∧
    Remesh.meshVolume m + 1 / 1000000 ≠ 0 ∧
    ((m.faces.length : ℚ) + 1) ≠ 0 ∧
    (m.vertNormalLengths ≠ [] → (m.vertNormalLengths.length : ℚ) ≠ 0) := by
  refine ⟨?_, ?_, ?_, ?_⟩
  · by_cases h : m.vertNormalLengths.length = 0
    · simp [Remesh.calculate_mesh_complexity, h, List.length_eq_zero.mp h]
    · simp [Remesh.calculate_mesh_complexity, h]
      exact fun hnil => h (by simp [hnil])
  · have hv := meshVolume_nonneg m
    have : (0 : ℚ) < Remesh.meshVolume m + 1 / 1000000 := by linarith
    exact ne_of_gt this
  · positivity
  · intro hne
    have : m.vertNormalLengths.length ≠ 0 := by
      simpa [List.length_eq_zero] using hne
    exact_mod_cast Nat.cast_ne_zero.mpr this

/-- Claim C1: on a valid run (active mesh object, no prior RemeshApplied mark,
at least one vertex), `AdvancedRemesher.execute` applies a single remesh
modifier if and only if the mesh is detected planar or is not complex
(polygon count at most 1000); every other mesh gets decimate, remesh and
smooth modifiers, in that order.  Planarity detection is exactly "the mean
angle between consecutive face normals is below 0.05". -/
theorem claim_C1 (ctx : Remesh.Context) (obj : Remesh.BObj)
    (hobj : ctx.active_object = some obj) (hm : obj.objType = "MESH")
    (hra : obj.remeshApplied = false) (hv : obj.mesh.vertNormalLengths ≠ []) :
    ((Remesh.AdvancedRemesher.execute ctx).applied.map Remesh.ModOp.kind = ["REMESH"] ↔
      (Remesh.detect_planar_surface obj.mesh = true ∨ obj.mesh.faces.length ≤ 1000)) ∧
    (¬(Remesh.detect_planar_surface obj.mesh = true ∨ obj.mesh.faces.length ≤ 1000) →
      (Remesh.AdvancedRemesher.execute ctx).applied.map Remesh.ModOp.kind =
        ["DECIMATE", "REMESH", "SMOOTH"]) ∧
    (Remesh.detect_planar_surface obj.mesh = true ↔
      (obj.mesh.normalAngles ≠ [] ∧
       obj.mesh.normalAngles.sum / (obj.mesh.normalAngles.length : ℚ) < 1 / 20)) := by
  obtain ⟨ao, scene⟩ := ctx
  simp only at hobj
  subst hobj
  rw [Remesh.AdvancedRemesher.execute_eq_perform obj scene hm hra hv]
  have hcond : (Remesh.detect_planar_surface obj.mesh ||
      !decide (obj.mesh.faces.length > 1000)) = true ↔
      (Remesh.detect_planar_surface obj.mesh = true ∨ obj.mesh.faces.length ≤ 1000) := by
    simp [not_lt]
  by_cases hb : (Remesh.detect_planar_surface obj.mesh ||
      !decide (obj.mesh.faces.length > 1000)) = true
  · rw [if_pos hb]
    refine ⟨?_, ?_, Remesh.detect_planar_surface_iff obj.mesh⟩
    · simp [Remesh.AdvancedRemesher.perform_remesh_kinds, hcond.mp hb]
    · intro hn
      exact absurd (hcond.mp hb) hn
  · rw [if_neg hb]
    have hnc : ¬(Remesh.detect_planar_surface obj.mesh = true ∨
        obj.mesh.faces.length ≤ 1000) := fun h => hb (hcond.mpr h)
    refine ⟨?_, fun _ => Remesh.AdvancedRemesher.perform_complex_remesh_kinds _ _ _ _ _,
      Remesh.detect_planar_surface_iff obj.mesh⟩
    rw [Remesh.AdvancedRemesher.perform_complex_remesh_kinds]
    constructor
    · intro h
      exact absurd h (by simp)
    · intro h
      exact absurd h hnc

/-- Claim C1, concrete witness: a 1001-face non-planar mesh takes the complex
path (decimate, remesh, smooth in that order). -/
theorem claim_C1_witness :
    ((Remesh.AdvancedRemesher.execute Examples.ctxBig).applied.map Remesh.ModOp.kind
        = ["REMESH"] ↔
      (Remesh.detect_planar_surface Examples.objBig.mesh = true ∨
       Examples.objBig.mesh.faces.length ≤ 1000)) ∧
    (¬(Remesh.detect_planar_surface Examples.objBig.mesh = true ∨
       Examples.objBig.mesh.faces.length ≤ 1000) →
      (Remesh.AdvancedRemesher.execute Examples.ctxBig).applied.map Remesh.ModOp.kind =
        ["DECIMATE", "REMESH", "SMOOTH"]) ∧
    (Remesh.detect_planar_surface Examples.objBig.mesh = true ↔
      (Examples.objBig.mesh.normalAngles ≠ [] ∧
       Examples.objBig.mesh.normalAngles.sum /
         (Examples.objBig.mesh.normalAngles.length : ℚ) < 1 / 20)) :=
  claim_C1 Examples.ctxBig Examples.objBig rfl rfl rfl
    (by show ([1, 1] : List ℚ) ≠ []; simp)

/-- Claim C5: `AdvancedRemesher.execute` returns CANCELLED exactly when there is
no active mesh object, or the object already carries the RemeshApplied mark, or
an exception is raised during remeshing (in this embedding: the vertex-count or
the polygon-count division by zero); in each CANCELLED case an ERROR or WARNING
status string is reported, and every other run returns FINISHED. -/
theorem claim_C5 (ctx : Remesh.Context) :
    ((Remesh.AdvancedRemesher.execute ctx).status = .CANCELLED ↔
      (ctx.active_object = none ∨
        ∃ obj, ctx.active_object = some obj ∧
          (obj.objType ≠ "MESH" ∨ obj.remeshApplied = true ∨
           obj.mesh.vertNormalLengths = [] ∨ obj.mesh.faces = []))) ∧
    ((Remesh.AdvancedRemesher.execute ctx).status = .CANCELLED →
      ∃ r ∈ (Remesh.AdvancedRemesher.execute ctx).reports,
        r.1 = "ERROR" ∨ r.1 = "WARNING") ∧
    ((Remesh.AdvancedRemesher.execute ctx).status ≠ .CANCELLED →
      (Remesh.AdvancedRemesher.execute ctx).status = .FINISHED) := by
  obtain ⟨ao, scene⟩ := ctx
  have hstatus : ∀ r : Remesh.ExecResult, r.status ≠ .CANCELLED → r.status = .FINISHED := by
    intro r h
    cases hr : r.status with
    | FINISHED => rfl
    | CANCELLED => exact absurd hr h
  cases ao with
  | none =>
      refine ⟨?_, ?_, hstatus _⟩
      · simp [Remesh.AdvancedRemesher.execute]
      · intro _
        exact ⟨("ERROR", "No active mesh object found."), by
          simp [Remesh.AdvancedRemesher.execute]⟩
  | some obj =>
      by_cases hm : obj.objType = "MESH"
      · by_cases hra : obj.remeshApplied
        · have hres : Remesh.AdvancedRemesher.execute ⟨some obj, scene⟩ =
              { status := .CANCELLED
                reports := [("WARNING", "Remesh has already been applied to this object.")]
                original := some obj, new_obj := none, applied := [] } := by
            simp [Remesh.AdvancedRemesher.execute, hm, hra]
          refine ⟨?_, ?_, hstatus _⟩
          · rw [hres]
            simp only [true_iff]
            exact Or.inr ⟨obj, rfl, Or.inr (Or.inl hra)⟩
          · intro _
            rw [hres]
            exact ⟨("WARNING", "Remesh has already been applied to this object."),
              by simp⟩
        · have hra' : obj.remeshApplied = false := by
            simpa using hra
          by_cases hv : obj.mesh.vertNormalLengths = []
          · have hres : Remesh.AdvancedRemesher.execute ⟨some obj, scene⟩ =
                Remesh.AdvancedRemesher.exceptionResult (some obj) none [] := by
              simp [Remesh.AdvancedRemesher.execute, hm, hra',
                Remesh.calculate_mesh_complexity_eq_none obj.mesh hv]
            refine ⟨?_, ?_, hstatus _⟩
            · rw [hres]
              simp only [Remesh.AdvancedRemesher.exceptionResult, true_iff]
              exact Or.inr ⟨obj, rfl, Or.inr (Or.inr (Or.inl hv))⟩
            · intro _
              rw [hres]
              exact ⟨("ERROR", "Remeshing failed: division by zero"),
                by simp [Remesh.AdvancedRemesher.exceptionResult]⟩
          · rw [Remesh.AdvancedRemesher.execute_eq_perform obj scene hm hra' hv]
            by_cases hf : obj.mesh.faces = []
            · have hb : (Remesh.detect_planar_surface obj.mesh ||
                  !decide (obj.mesh.faces.length > 1000)) = true := by
                simp [hf]
              rw [if_pos hb,
                Remesh.AdvancedRemesher.perform_remesh_fail obj _ _ _ hv hf]
              refine ⟨?_, ?_, hstatus _⟩
              · simp only [Remesh.AdvancedRemesher.exceptionResult, true_iff]
                exact Or.inr ⟨obj, rfl, Or.inr (Or.inr (Or.inr hf))⟩
              · intro _
                exact ⟨("ERROR", "Remeshing failed: division by zero"),
                  by simp [Remesh.AdvancedRemesher.exceptionResult]⟩
            · have hrhs : ¬(some obj = none ∨
                  ∃ o, some obj = some o ∧
                    (o.objType ≠ "MESH" ∨ o.remeshApplied = true ∨
                     o.mesh.vertNormalLengths = [] ∨ o.mesh.faces = [])) := by
                rintro (h | ⟨o, ho, h⟩)
                · exact Option.noConfusion h
                · cases Option.some.injEq .. ▸ ho
                  rcases h with h | h | h | h
                  · exact h hm
                  · rw [hra'] at h
                    exact Bool.noConfusion h
                  · exact hv h
                  · exact hf h
              split
              · rw [Remesh.AdvancedRemesher.perform_remesh_eq obj _ _ _ hv hf]
                exact ⟨Iff.intro (fun h => absurd h (by simp))
                  (fun h => absurd h hrhs), fun h => absurd h (by simp), hstatus _⟩
              · rw [Remesh.AdvancedRemesher.perform_complex_remesh_eq obj _ _ _ _ hv hf]
                exact ⟨Iff.intro (fun h => absurd h (by simp))
                  (fun h => absurd h hrhs), fun h => absurd h (by simp), hstatus _⟩
      · have hres : Remesh.AdvancedRemesher.execute ⟨some obj, scene⟩ =
            { status := .CANCELLED
              reports := [("ERROR", "No active mesh object found.")]
              original := some obj, new_obj := none, applied := [] } := by
          simp [Remesh.AdvancedRemesher.execute, hm]
        refine ⟨?_, ?_, hstatus _⟩
        · rw [hres]
          simp only [true_iff]
          exact Or.inr ⟨obj, rfl, Or.inl hm⟩
        · intro _
          rw [hres]
          exact ⟨("ERROR", "No active mesh object found."), by simp⟩

/-- Claim C5, concrete witness: with no active object the run is CANCELLED and
an ERROR status string is reported. -/
theorem claim_C5_witness :
    ∃ r ∈ (Remesh.AdvancedRemesher.execute Examples.ctxNone).reports,
      r.1 = "ERROR" ∨ r.1 = "WARNING" :=
  (claim_C5 Examples.ctxNone).2.1 (by simp [Remesh.AdvancedRemesher.execute,
    Examples.ctxNone])

/-- Claim C6: after every FINISHED run of `AdvancedRemesher.execute`, the
original object is hidden and both it and the duplicate carry the
RemeshApplied mark, so re-invoking the operator on either object is
CANCELLED — the remesh is applied at most once per object. -/
theorem claim_C6 (ctx : Remesh.Context)
    (hfin : (Remesh.AdvancedRemesher.execute ctx).status = .FINISHED) :
    ∃ o n, (Remesh.AdvancedRemesher.execute ctx).original = some o ∧
      (Remesh.AdvancedRemesher.execute ctx).new_obj = some n ∧
      o.remeshApplied = true ∧ o.hidden = true ∧ n.remeshApplied = true ∧
      (Remesh.AdvancedRemesher.execute ⟨some o, ctx.scene⟩).status = .CANCELLED ∧
      (Remesh.AdvancedRemesher.execute ⟨some n, ctx.scene⟩).status = .CANCELLED := by
  obtain ⟨ao, scene⟩ := ctx
  cases ao with
  | none => simp [Remesh.AdvancedRemesher.execute] at hfin
  | some obj =>
      by_cases hm : obj.objType = "MESH"
      · by_cases hra : obj.remeshApplied
        · simp [Remesh.AdvancedRemesher.execute, hm, hra] at hfin
        · have hra' : obj.remeshApplied = false := by simpa using hra
          by_cases hv : obj.mesh.vertNormalLengths = []
          · simp [Remesh.AdvancedRemesher.execute, hm, hra',
              Remesh.calculate_mesh_complexity_eq_none obj.mesh hv,
              Remesh.AdvancedRemesher.exceptionResult] at hfin
          · rw [Remesh.AdvancedRemesher.execute_eq_perform obj scene hm hra' hv] at hfin ⊢
            by_cases hf : obj.mesh.faces = []
            · have hb : (Remesh.detect_planar_surface obj.mesh ||
                  !decide (obj.mesh.faces.length > 1000)) = true := by
                simp [hf]
              rw [if_pos hb,
                Remesh.AdvancedRemesher.perform_remesh_fail obj _ _ _ hv hf] at hfin
              simp [Remesh.AdvancedRemesher.exceptionResult] at hfin
            · have hmain : ∀ res : Remesh.ExecResult,
                  res.original = some (Remesh.AdvancedRemesher.hide_original_object obj) →
                  res.new_obj = some { Remesh.AdvancedRemesher.dupBase obj with
                    remeshApplied := true } →
                  ∃ o n, res.original = some o ∧ res.new_obj = some n ∧
                    o.remeshApplied = true ∧ o.hidden = true ∧ n.remeshApplied = true ∧
                    (Remesh.AdvancedRemesher.execute ⟨some o, scene⟩).status = .CANCELLED ∧
                    (Remesh.AdvancedRemesher.execute ⟨some n, scene⟩).status = .CANCELLED := by
                intro res ho hn
                refine ⟨_, _, ho, hn, rfl, rfl, rfl, ?_, ?_⟩
                · exact Remesh.AdvancedRemesher.execute_cancelled_of_applied _ scene hm rfl
                · exact Remesh.AdvancedRemesher.execute_cancelled_of_applied _ scene hm rfl
              split
              · rw [Remesh.AdvancedRemesher.perform_remesh_eq obj _ _ _ hv hf]
                exact hmain _ rfl rfl
              · rw [Remesh.AdvancedRemesher.perform_complex_remesh_eq obj _ _ _ _ hv hf]
                exact hmain _ rfl rfl
      · simp [Remesh.AdvancedRemesher.execute, hm] at hfin

/-- Claim C6, concrete witness: a FINISHED run on a small planar mesh marks
both objects and a second invocation on either is CANCELLED. -/
theorem claim_C6_witness :
    ∃ o n, (Remesh.AdvancedRemesher.execute Examples.ctxPlanar).original = some o ∧
      (Remesh.AdvancedRemesher.execute Examples.ctxPlanar).new_obj = some n ∧
      o.remeshApplied = true ∧ o.hidden = true ∧ n.remeshApplied = true ∧
      (Remesh.AdvancedRemesher.execute ⟨some o, Examples.ctxPlanar.scene⟩).status =
        .CANCELLED ∧
      (Remesh.AdvancedRemesher.execute ⟨some n, Examples.ctxPlanar.scene⟩).status =
        .CANCELLED :=
  claim_C6 Examples.ctxPlanar (by
    rw [show Examples.ctxPlanar =
        ⟨some Examples.objPlanar, Examples.settings⟩ from rfl,
      Remesh.AdvancedRemesher.execute_eq_perform Examples.objPlanar Examples.settings
        rfl rfl (by simp [Examples.objPlanar, Examples.mPlanar]),
      if_pos (by simp [Examples.objPlanar, Examples.mPlanar]),
      Remesh.AdvancedRemesher.perform_remesh_eq _ _ _ _
        (by simp [Examples.objPlanar, Examples.mPlanar])
        (by simp [Examples.objPlanar, Examples.mPlanar])])

/-- Claim C7: when the object's modifier list already contains a geometry-nodes
modifier whose node group is named `Outline_<active material>`,
`CreateOutline.execute` is CANCELLED with a warning and the object (its
modifier list and material slots included) is left unchanged. -/
theorem claim_C7 (env : Shader.BlendEnv) (obj : Shader.OutlineObj) (mat : String)
    (hm : obj.objType = "MESH") (hmat : obj.active_material = some mat)
    (hslots : obj.materials ≠ [])
    (hmod : ∃ m ∈ obj.modifiers, m.modType = "NODES" ∧
      m.node_group = some ("Outline_" ++ mat)) :
    Shader.CreateOutline.execute env (some obj) =
      ⟨.CANCELLED,
        [("WARNING", "Outline modifier already exists for material: " ++ mat)],
        some obj⟩ := by
  have hany : obj.modifiers.any (fun m =>
      m.modType == "NODES" && m.node_group == some ("Outline_" ++ mat)) = true := by
    obtain ⟨m, hmem, h1, h2⟩ := hmod
    refine List.any_eq_true.mpr ⟨m, hmem, ?_⟩
    simp [h1, h2]
  have hempty : obj.materials.isEmpty = false := by
    simpa [List.isEmpty_iff] using hslots
  simp [Shader.CreateOutline.execute, hm, hmat, hempty, hany]

/-- Claim C7, concrete witness: an object already carrying `Outline_Mat` for its
active material `Mat` is rejected unchanged. -/
theorem claim_C7_witness :
    Shader.CreateOutline.execute Examples.blendEnv (some Examples.outlineObj) =
      ⟨.CANCELLED,
        [("WARNING", "Outline modifier already exists for material: " ++ "Mat")],
        some Examples.outlineObj⟩ :=
  claim_C7 Examples.blendEnv Examples.outlineObj "Mat" rfl rfl
    (by simp [Examples.outlineObj])
    ⟨⟨"NODES", some "Outline_Mat"⟩, by simp [Examples.outlineObj], rfl, by rfl⟩

set_option maxRecDepth 4000 in
/-- Claim C8 counterexample: register-then-unregister is not the identity for
the panels module.  `panels.add_properties` attaches
`Scene.expand_topology_section`, but it is missing from the `props_to_remove`
list of `panels.remove_properties`, so the round trip leaves it (and the
WindowManager property `active_material_index`) behind. -/
theorem claim_C8_counterexample :
    "expand_topology_section" ∈
      (Registry.panelsUnregister (Registry.panelsRegister
        Registry.emptyRegistry)).sceneProps ∧
    Registry.panelsUnregister (Registry.panelsRegister Registry.emptyRegistry) ≠
      Registry.emptyRegistry := by decide

set_option maxRecDepth 4000 in
/-- Claim C8 (amended): in every module, unregister removes the classes register
registered — in reverse order, restoring the class registry — and
`remesh.unregister` removes the `Scene.epic_advanced_remesh` property it added;
but the panels module's `remove_properties` does not remove every property
`add_properties` attached (`Scene.expand_topology_section` is absent from its
removal list, and `WindowManager.active_material_index` is never removed), so
the register-then-unregister round trip is not the identity for panels. -/
theorem claim_C8_amended (s : Registry.RegistryState) (cls : List String)
    (hnd : cls.Nodup) (hdis : ∀ c ∈ cls, c ∉ s.classes)
    (hd1 : "DensityDetails" ∉ s.classes) (hd2 : "AdvancedRemesher" ∉ s.classes)
    (hp : "epic_advanced_remesh" ∉ s.sceneProps) :
    Registry.unregisterClasses (Registry.registerClasses s cls) cls = s ∧
    Registry.remeshUnregister (Registry.remeshRegister s) = s ∧
    "expand_topology_section" ∈ Registry.panelsAddedSceneProps ∧
    "expand_topology_section" ∉ Registry.panelsPropsToRemove ∧
    "active_material_index" ∈ Registry.panelsAddedWMProps := by
  refine ⟨Registry.unregister_registerClasses s cls hnd hdis, ?_,
    by decide, by decide, by decide⟩
  have hcl : List.foldl List.erase (s.classes ++ Registry.remeshClasses)
      Registry.remeshClasses.reverse = s.classes := by
    rw [Registry.foldl_erase_append s.classes Registry.remeshClasses
        Registry.remeshClasses.reverse (fun x hx => ?_),
      Registry.foldl_erase_self Registry.remeshClasses (by decide)]
    · simp
    · have hx' : x ∈ Registry.remeshClasses := List.mem_reverse.mp hx
      simp only [Registry.remeshClasses, List.mem_cons, List.not_mem_nil,
        or_false] at hx'
      rcases hx' with rfl | rfl
      · exact hd1
      · exact hd2
  have hsp : (s.sceneProps ++ ["epic_advanced_remesh"]).erase "epic_advanced_remesh"
      = s.sceneProps := by
    rw [List.erase_append_right _ hp, List.erase_cons_head]
    simp
  simp only [Registry.remeshRegister, Registry.remeshUnregister,
    Registry.addSceneProp, Registry.removeSceneProp, Registry.registerClasses,
    Registry.unregisterClasses, if_neg hp]
  simp only at hcl hsp ⊢
  rw [hcl, hsp]

set_option maxRecDepth 4000 in
/-- Claim C8 amended, concrete witness on the empty registry with the render
module's first class. -/
theorem claim_C8_amended_witness :
    Registry.unregisterClasses (Registry.registerClasses Registry.emptyRegistry
      ["AddOrApplyHDRI"]) ["AddOrApplyHDRI"] = Registry.emptyRegistry ∧
    Registry.remeshUnregister (Registry.remeshRegister Registry.emptyRegistry) =
      Registry.emptyRegistry ∧
    "expand_topology_section" ∈ Registry.panelsAddedSceneProps ∧
    "expand_topology_section" ∉ Registry.panelsPropsToRemove ∧
    "active_material_index" ∈ Registry.panelsAddedWMProps :=
  claim_C8_amended Registry.emptyRegistry ["AddOrApplyHDRI"] (by simp)
    (by simp [Registry.emptyRegistry]) (by simp [Registry.emptyRegistry])
    (by simp [Registry.emptyRegistry]) (by simp [Registry.emptyRegistry])

/-- Claim C9: HDRI navigation is cyclic.  On a duplicate-free preview list that
contains the current HDRI, NEXT followed by PREV restores the current HDRI, and
NEXT from the last entry wraps around to the first. -/
theorem claim_C9 (l : List String) (current : String) (hnd : l.Nodup)
    (hc : current ∈ l) (hne : l ≠ []) :
    ((Render.NavigateHDRI.execute l current .NEXT).bind
        (fun c => Render.NavigateHDRI.execute l c .PREV) = some current) ∧
    Render.NavigateHDRI.execute l (l.getLast hne) .NEXT = some (l.head hne) := by
  have hlen : 0 < l.length := List.length_pos.mpr hne
  have hnZ : 0 < (l.length : ℤ) := by exact_mod_cast hlen
  constructor
  · have hi : l.indexOf current < l.length := List.indexOf_lt_length.mpr hc
    have hiZ0 : (0 : ℤ) ≤ (l.indexOf current : ℤ) := Int.natCast_nonneg _
    have hiZ : (l.indexOf current : ℤ) < (l.length : ℤ) := by exact_mod_cast hi
    have hb1 := Render.nextIndex_bounds (l.length : ℤ) (l.indexOf current : ℤ) hnZ .NEXT
    have hj1 : (Render.nextIndex (l.length : ℤ) (l.indexOf current : ℤ) .NEXT).toNat
        < l.length := by omega
    rw [Render.NavigateHDRI.execute_of_mem l current .NEXT hc hj1]
    show Render.NavigateHDRI.execute l (l.get ⟨_, hj1⟩) .PREV = some current
    have hmem2 : l.get ⟨_, hj1⟩ ∈ l := List.get_mem l _ hj1
    have hidx2 : l.indexOf (l.get ⟨_, hj1⟩) =
        (Render.nextIndex (l.length : ℤ) (l.indexOf current : ℤ) .NEXT).toNat := by
      have := List.indexOf_getElem hnd
        (Render.nextIndex (l.length : ℤ) (l.indexOf current : ℤ) .NEXT).toNat hj1
      simpa [List.get_eq_getElem] using this
    have hb2 := Render.nextIndex_bounds (l.length : ℤ)
      ((Render.nextIndex (l.length : ℤ) (l.indexOf current : ℤ) .NEXT).toNat : ℤ)
      hnZ .PREV
    have hj2 : (Render.nextIndex (l.length : ℤ)
        ((l.indexOf (l.get ⟨_, hj1⟩)) : ℤ) .PREV).toNat < l.length := by
      rw [hidx2]; omega
    rw [Render.NavigateHDRI.execute_of_mem l _ .PREV hmem2 hj2]
    simp only [Option.some.injEq]
    have harith : (Render.nextIndex (l.length : ℤ)
        ((l.indexOf (l.get ⟨_, hj1⟩)) : ℤ) .PREV).toNat = l.indexOf current := by
      rw [hidx2, Int.toNat_of_nonneg hb1.1]
      simp only [Render.nextIndex]
      rcases eq_or_lt_of_le (Int.add_one_le_iff.mpr hiZ) with heq | hlt
      · have h1 : ((l.indexOf current : ℤ) + 1) % (l.length : ℤ) = 0 := by
          rw [heq, Int.emod_self]
        rw [h1]
        have h2 : ((0 : ℤ) - 1 + (l.length : ℤ)) % (l.length : ℤ) = (l.length : ℤ) - 1 := by
          rw [show (0 : ℤ) - 1 + (l.length : ℤ) = (l.length : ℤ) - 1 by ring]
          exact Int.emod_eq_of_lt (by omega) (by omega)
        rw [h2]
        omega
      · have h1 : ((l.indexOf current : ℤ) + 1) % (l.length : ℤ) =
            (l.indexOf current : ℤ) + 1 :=
          Int.emod_eq_of_lt (by omega) hlt
        rw [h1, show (l.indexOf current : ℤ) + 1 - 1 + (l.length : ℤ) =
          (l.indexOf current : ℤ) + 1 * (l.length : ℤ) by ring, Int.add_mul_emod_self,
          Int.emod_eq_of_lt hiZ0 hiZ]
        omega
    have hfin : l.get ⟨_, hj2⟩ = l.get ⟨l.indexOf current, hi⟩ := by
      congr 1
      exact Fin.ext harith
    rw [hfin, List.indexOf_get]
  · have hmeml : l.getLast hne ∈ l := List.getLast_mem hne
    have hlen1 : l.length - 1 < l.length := by omega
    have hidxl : l.indexOf (l.getLast hne) = l.length - 1 := by
      have hgl : l.getLast hne = l[l.length - 1] := List.getLast_eq_getElem l hne
      rw [hgl]
      exact List.indexOf_getElem hnd (l.length - 1) hlen1
    have hb := Render.nextIndex_bounds (l.length : ℤ)
      ((l.indexOf (l.getLast hne)) : ℤ) hnZ .NEXT
    have hj : (Render.nextIndex (l.length : ℤ)
        ((l.indexOf (l.getLast hne)) : ℤ) .NEXT).toNat < l.length := by omega
    rw [Render.NavigateHDRI.execute_of_mem l _ .NEXT hmeml hj]
    simp only [Option.some.injEq]
    have harith : (Render.nextIndex (l.length : ℤ)
        ((l.indexOf (l.getLast hne)) : ℤ) .NEXT).toNat = 0 := by
      rw [hidxl]
      simp only [Render.nextIndex]
      have hcast : ((l.length - 1 : ℕ) : ℤ) = (l.length : ℤ) - 1 := by omega
      rw [hcast, show (l.length : ℤ) - 1 + 1 = (l.length : ℤ) by ring, Int.emod_self]
      rfl
    have hfin : l.get ⟨_, hj⟩ = l.get ⟨0, hlen⟩ := by
      congr 1
      exact Fin.ext harith
    rw [hfin]
    rw [List.get_eq_getElem, List.head_eq_getElem_zero hne]

/-- Claim C9, concrete witness on the three-entry list: NEXT then PREV from the
middle entry restores it, and NEXT from the last entry reaches the first. -/
theorem claim_C9_witness :
    ((Render.NavigateHDRI.execute ["a", "b", "c"] "b" .NEXT).bind
        (fun c => Render.NavigateHDRI.execute ["a", "b", "c"] c .PREV) = some "b") ∧
    Render.NavigateHDRI.execute ["a", "b", "c"]
        ((["a", "b", "c"] : List String).getLast (by simp)) .NEXT =
      some ((["a", "b", "c"] : List String).head (by simp)) :=
  claim_C9 ["a", "b", "c"] "b" (by simp) (by simp) (by simp)

/-- Claim C10, concrete witness: a one-vertex mesh succeeds and has a nonzero
vertex-count divisor. -/
theorem claim_C10_witness :
    ((Remesh.calculate_mesh_complexity ⟨[⟨1, 1⟩], [1], [], []⟩).isSome ↔
      (Remesh.Mesh.mk [⟨1, 1⟩] [1] [] []).vertNormalLengths ≠ []) ∧
    ((Remesh.Mesh.mk [⟨1, 1⟩] [1] [] []).vertNormalLengths.length : ℚ) ≠ 0 :=
  ⟨(claim_C10 ⟨[⟨1, 1⟩], [1], [], []⟩).1,
   (claim_C10 ⟨[⟨1, 1⟩], [1], [], []⟩).2.2.2 (by decide)⟩

end EpicToolBag
